import Mathlib

/-!
Verification of the multi-provider aggregation and normalization layer of
`social-manager` (`src/app.js`), as a shallow embedding in Lean 4.

The embedding models the pure data flow of the engine: network responses and
thrown exceptions are passed in explicitly (`AdapterOutcome`, `HttpResp`,
`Except`), JavaScript's `localStorage` is explicit state that is threaded
through, and `Date.now()` is an explicit `nowMs` parameter.  JavaScript string
truthiness (`undefined`, `null` and `""` are falsy) is modelled by `Option
String` together with `jsOrStr` / `jsTruthyOpt`.
-/

namespace SocialManager

/-- JavaScript `a || d` for an optional string `a`: `undefined`/`null`
(`none`) and the empty string are falsy and fall through to `d`. -/
def jsOrStr (a : Option String) (d : String) : String :=
  match a with
  | none => d
  | some s => if s = "" then d else s

/-- JavaScript double-negation truthiness `!!s` of an optional string:
true iff present and non-empty. -/
def jsTruthyOpt : Option String → Bool
  | none => false
  | some s => s != ""

/-- JavaScript `s.includes(sub)`: `sub` occurs as a contiguous substring of
`s` (always true for the empty needle).  `String.splitOn` produces at least
two fragments exactly when a non-empty separator occurs. -/
def jsIncludes (s sub : String) : Bool :=
  if sub = "" then true else (s.splitOn sub).length != 1

/-- `list.map((x, idx) => f(idx, x))` — map with the element's index,
starting from `start`. -/
def mapWithIndex (f : Nat → α → β) : Nat → List α → List β
  | _, [] => []
  | i, a :: as => f i a :: mapWithIndex f (i + 1) as

theorem mapWithIndex_length (f : Nat → α → β) (k : Nat) (l : List α) :
    (mapWithIndex f k l).length = l.length := by
  induction l generalizing k with
  | nil => rfl
  | cons a as ih => simp [mapWithIndex, ih]

theorem mapWithIndex_getElem? (f : Nat → α → β) (k : Nat) (l : List α) (i : Nat) :
    (mapWithIndex f k l)[i]? = (l[i]?).map (f (k + i)) := by
  induction l generalizing k i with
  | nil => simp [mapWithIndex]
  | cons a as ih =>
    cases i with
    | zero => simp [mapWithIndex]
    | succ j =>
      simp only [mapWithIndex, List.getElem?_cons_succ]
      rw [ih (k + 1) j]
      have h : k + 1 + j = k + (j + 1) := by omega
      rw [h]

-- ═══════════════════════════════════════════════════════════════════════════
-- Canonical Post data model (the shape produced by `normalizePosts` and
-- `fallbackMock`; `isDemo` is the tag added by `runSearch`, absent ≡ `false`)
-- ═══════════════════════════════════════════════════════════════════════════

structure Post where
  id : String
  author : String
  handle : String
  text : String
  time : String
  url : String
  provider : String
  uri : Option String
  cid : Option String
  conversationId : Option String
  isDemo : Bool
deriving Repr, DecidableEq

/-- A raw adapter search result, with every field optional (adapters emit
heterogeneous shapes; the normalizer probes several field names per
canonical field).  Only the fields `normalizePosts` reads are modelled. -/
structure RawItem where
  id : Option String
  author : Option String
  user : Option String
  username : Option String
  handle : Option String
  text : Option String
  body : Option String
  time : Option String
  url : Option String
  permalink : Option String
  link : Option String
  uri : Option String
  cid : Option String
  conversationId : Option String
deriving Repr, DecidableEq

-- ═══════════════════════════════════════════════════════════════════════════
-- relativeTime (src/app.js lines 398-408); `Date.now()` and the parsed
-- timestamp are explicit millisecond integers, `Math.floor` on a division of
-- integers is `Int.fdiv`
-- ═══════════════════════════════════════════════════════════════════════════

/-- Body of `relativeTime` once the elapsed milliseconds are computed. -/
def relativeFromMs (ms : Int) : String :=
  let mins := Int.fdiv ms 60000
  if mins < 1 then "just now"
  else if mins < 60 then toString mins ++ "m"
  else
    let hrs := Int.fdiv mins 60
    if hrs < 24 then toString hrs ++ "h"
    else
      let days := Int.fdiv hrs 24
      toString days ++ "d"

/-- `relativeTime(dateStr)`: a falsy date renders as "just now", otherwise
format `Date.now() - date` per the minute/hour/day buckets. -/
def relativeTime (nowMs : Int) (dateMs : Option Int) : String :=
  match dateMs with
  | none => "just now"
  | some t => relativeFromMs (nowMs - t)

-- ═══════════════════════════════════════════════════════════════════════════
-- normalizePosts (src/app.js lines 550-564)
-- ═══════════════════════════════════════════════════════════════════════════

/-- The arrow body of `normalizePosts`'s `items.map((item, idx) => ...)`:
one canonical post per raw item, fields resolved with JavaScript `||`
fallback chains; `uri`, `cid`, `conversationId` carried through untouched. -/
def normalizeItem (provider : String) (nowMs : Nat) (idx : Nat) (item : RawItem) : Post :=
  { id := jsOrStr item.id (provider ++ "-" ++ toString idx ++ "-" ++ toString nowMs)
  , author := jsOrStr item.author (jsOrStr item.user (jsOrStr item.username "Unknown"))
  , handle := jsOrStr item.handle (jsOrStr item.username (jsOrStr item.user provider))
  , text := jsOrStr item.text (jsOrStr item.body "")
  , time := jsOrStr item.time "just now"
  , url := jsOrStr item.url (jsOrStr item.permalink (jsOrStr item.link "#"))
  , provider := provider
  , uri := item.uri
  , cid := item.cid
  , conversationId := item.conversationId
  , isDemo := false }

/-- `normalizePosts(items, provider)` — `Date.now()` passed in as `nowMs`. -/
def normalizePosts (items : List RawItem) (provider : String) (nowMs : Nat) : List Post :=
  mapWithIndex (fun idx item => normalizeItem provider nowMs idx item) 0 items

-- ═══════════════════════════════════════════════════════════════════════════
-- mockPosts / fallbackMock (src/app.js lines 566-605)
-- ═══════════════════════════════════════════════════════════════════════════

/-- Shape of the entries of `mockPosts`'s `shared` array. -/
structure MockPost where
  author : String
  handle : String
  text : String
  time : String
  url : String
deriving Repr, DecidableEq

/-- The `shared` sample catalog inside `mockPosts`. -/
def sharedMockPosts : List MockPost :=
  [ { author := "Alex Kim", handle := "alexk"
    , text := "Shipping a tiny tool that autogenerates release notes. Who wants early access?"
    , time := "2h", url := "https://example.com/post/1" }
  , { author := "Priya N.", handle := "priyan"
    , text := "Hiring a Staff Frontend Engineer to help us redesign data workflows. DMs open."
    , time := "3h", url := "https://example.com/post/2" }
  , { author := "DevTools Daily", handle := "devtools"
    , text := "Threads: Our caching layer rewrite shaved 40% off tail latencies. Here's the postmortem."
    , time := "6h", url := "https://example.com/post/3" } ]

/-- The `flair` lookup table of `mockPosts` (`flair[provider] || ""`). -/
def flairFor (provider : String) : String :=
  if provider = "twitter" then "— spotted on X"
  else if provider = "bluesky" then "— over the sky"
  else if provider = "linkedin" then "— on LinkedIn"
  else if provider = "threads" then "— via Threads"
  else ""

/-- `mockPosts(provider)`: the shared catalog with a provider flavor suffix. -/
def mockPosts (provider : String) : List MockPost :=
  sharedMockPosts.map (fun p => { p with text := (p.text ++ " " ++ flairFor provider).trim })

/-- `fallbackMock(id, query)`: sample posts, filtered by case-insensitive
substring match when `query` is truthy, each given an id and provider. -/
def fallbackMock (id query : String) : List Post :=
  let sample := mockPosts id
  let filtered :=
    if query = "" then sample
    else sample.filter (fun p => jsIncludes p.text.toLower query.toLower)
  mapWithIndex (fun idx p =>
    { id := id ++ "-" ++ toString idx
    , author := p.author, handle := p.handle, text := p.text
    , time := p.time, url := p.url
    , provider := id
    , uri := none, cid := none, conversationId := none
    , isDemo := false }) 0 filtered

-- ═══════════════════════════════════════════════════════════════════════════
-- Provider search/post wrappers built by `createProvider` (src/app.js lines
-- 512-548).  The network outcome of `client.search(query)` is passed in
-- explicitly: either there is no registered client, or the call resolved with
-- raw items, or it threw / rejected with an error message.
-- ═══════════════════════════════════════════════════════════════════════════

inductive AdapterOutcome where
  | noClient
  | ok (items : List RawItem)
  | err (msg : String)
deriving Repr, DecidableEq

/-- `createProvider(...).search(query)`: no client or a thrown error falls
back to `fallbackMock`; a successful call is normalized. -/
def providerSearch (outcome : AdapterOutcome) (id query : String) (nowMs : Nat) : List Post :=
  match outcome with
  | .noClient => fallbackMock id query
  | .ok items => normalizePosts items id nowMs
  | .err _ => fallbackMock id query

/-- Result shape of the `post` operations: `{ ok, url?, error? }`. -/
structure PostResult where
  ok : Bool
  url : Option String
  error : Option String
deriving Repr, DecidableEq

/-- `createProvider(...).post(...)`: `client` is `none` when no adapter
client is registered for the provider id; otherwise it carries the outcome
of `await client.post(...)` — `Except.error msg` when the delegated call
threw an error with message `msg`, `Except.ok r` when it resolved with `r`.
The function is total: no exception escapes. -/
def createProviderPost (client : Option (Except String PostResult)) : PostResult :=
  match client with
  | none => { ok := false, url := none, error := some "No provider client" }
  | some (Except.error msg) => { ok := false, url := none, error := some msg }
  | some (Except.ok r) => r

-- ═══════════════════════════════════════════════════════════════════════════
-- runSearch (src/app.js lines 933-980)
-- ═══════════════════════════════════════════════════════════════════════════

/-- One active provider as seen by `runSearch`: its id, the value of
`p.isConfigured()` (the stored credentials do not change during the
search), and its adapter call's outcome. -/
structure ProviderRun where
  id : String
  configured : Bool
  outcome : AdapterOutcome
deriving Repr, DecidableEq

/-- The body of `runSearch`'s `active.map(async (p) => ...)`: the provider's
posts, with `post.isDemo = true` stamped on each when `!p.isConfigured()`. -/
def engineProviderPosts (p : ProviderRun) (query : String) (nowMs : Nat) : List Post :=
  let posts := providerSearch p.outcome p.id query nowMs
  if p.configured then posts else posts.map (fun post => { post with isDemo := true })

/-- `results.flat()`: the concatenation of all active providers' posts, in
provider order (`Promise.all` preserves input order), before sorting. -/
def engineRawFeed (active : List ProviderRun) (query : String) (nowMs : Nat) : List Post :=
  (active.map (fun p => engineProviderPosts p query nowMs)).flatten

/-- The comparator of `state.feed.sort((a, b) => (a.isDemo === b.isDemo ? 0 :
a.isDemo ? 1 : -1))`.  `isDemo` is only ever absent (falsy) or `true`, so
`Bool` equality matches `===` on the occurring values. -/
def cmpDemo (a b : Post) : Int :=
  if a.isDemo == b.isDemo then 0 else if a.isDemo then 1 else -1

/-- Stable insertion w.r.t. `cmpDemo`: the inserted element precedes the
first element it does not strictly follow.  Elements earlier in the input
are inserted later (see `sortDemo`), so `≤ 0` keeps equal-rank elements in
arrival order. -/
def insertDemo (x : Post) : List Post → List Post
  | [] => [x]
  | y :: ys => if cmpDemo x y ≤ 0 then x :: y :: ys else y :: insertDemo x ys

/-- `Array.prototype.sort` with `cmpDemo`: ECMAScript requires the result to
be sorted by the comparator and stable, which — `cmpDemo` being a consistent
comparator induced by the key `isDemo ? 1 : 0` — determines the output
uniquely; this stable insertion sort computes exactly that output. -/
def sortDemo : List Post → List Post
  | [] => []
  | x :: xs => insertDemo x (sortDemo xs)

/-- The final status line of `runSearch` (lines 971-979), from the counts of
live and demo posts. -/
def statusMessage (realCount demoCount : Nat) : String :=
  if realCount != 0 && demoCount != 0 then
    toString realCount ++ " live + " ++ toString demoCount ++ " demo posts"
  else if realCount != 0 then
    "Loaded " ++ toString realCount ++ " posts"
  else
    toString demoCount ++ " demo posts (configure providers for live data)"

/-- What `runSearch` leaves visible to the user: the rendered feed
(`state.feed` after sort), the status line, and — on the early return when
no provider is selected — the informational empty-state message. -/
structure RunOutput where
  feed : List Post
  status : String
  noProviderMsg : Option String
deriving Repr, DecidableEq

/-- `runSearch(query)` over the active providers: early return with status
"Idle" and the "Choose at least one provider" message when none is active;
otherwise fan out, tag unconfigured providers' posts as demo, concatenate,
sort demo-last, and report live/demo counts. -/
def runSearch (active : List ProviderRun) (query : String) (nowMs : Nat) : RunOutput :=
  if active.isEmpty then
    { feed := [], status := "Idle", noProviderMsg := some "Choose at least one provider" }
  else
    let feed := sortDemo (engineRawFeed active query nowMs)
    let realCount := (feed.filter (fun p => !p.isDemo)).length
    let demoCount := (feed.filter (fun p => p.isDemo)).length
    { feed := feed, status := statusMessage realCount demoCount, noProviderMsg := none }

-- ═══════════════════════════════════════════════════════════════════════════
-- ThreadsClient.post (src/app.js lines 366-392): the two-phase
-- create-then-publish flow.  Each HTTP response is passed in explicitly; the
-- second component of the result records whether the phase-2 publish request
-- was issued at all.
-- ═══════════════════════════════════════════════════════════════════════════

/-- An HTTP response as the Threads flow consumes it: `res.ok`, `res.status`,
and the `id` / `username` fields of the parsed JSON body. -/
structure HttpResp where
  respOk : Bool
  status : Nat
  bodyId : String
  bodyUsername : String
deriving Repr, DecidableEq

/-- The environment of one `ThreadsClient.post` call: the configured access
token (if any) and the responses the three requests would receive. -/
structure ThreadsEnv where
  token : Option String
  meResp : HttpResp
  createResp : HttpResp
  publishResp : HttpResp
deriving Repr, DecidableEq

/-- `ThreadsClient.post({...})`: missing token → structured failure;
`getUserId` failure → thrown error (an `Except.error`, caught later by
`createProvider.post`); phase-1 create failure → structured failure and no
phase-2 request; otherwise publish and report its outcome.  The `Bool`
records whether the phase-2 publish request was issued.  (Request payload
construction — media type, reply-id extraction — does not influence this
control flow and is not modelled.) -/
def threadsPost (env : ThreadsEnv) : Except String PostResult × Bool :=
  match env.token with
  | none => (Except.ok { ok := false, url := none, error := some "Threads not configured" }, false)
  | some _ =>
    if !env.meResp.respOk then
      (Except.error ("Threads user " ++ toString env.meResp.status), false)
    else if !env.createResp.respOk then
      (Except.ok { ok := false, url := none
                 , error := some ("Threads create " ++ toString env.createResp.status) }, false)
    else if !env.publishResp.respOk then
      (Except.ok { ok := false, url := none
                 , error := some ("Threads publish " ++ toString env.publishResp.status) }, true)
    else
      (Except.ok { ok := true
                 , url := some ("https://threads.net/@" ++ env.meResp.bodyUsername
                                ++ "/post/" ++ env.publishResp.bodyId)
                 , error := none }, true)

-- ═══════════════════════════════════════════════════════════════════════════
-- localStorage, config and isConfigured (src/app.js lines 16-39, 72-73,
-- 512-528).  The store is an explicit key-value state; `setThrows` models
-- Safari private browsing / quota errors where `setItem` throws.
-- ═══════════════════════════════════════════════════════════════════════════

structure Storage where
  entries : List (String × String)
  setThrows : Bool
deriving Repr, DecidableEq

/-- `localStorage.removeItem(k)` on the entry list. -/
def eraseKey : List (String × String) → String → List (String × String)
  | [], _ => []
  | (k1, v1) :: rest, k =>
    if k1 = k then eraseKey rest k else (k1, v1) :: eraseKey rest k

/-- `localStorage.setItem(k, v)` on the entry list: replace in place, or
append when absent. -/
def setKey : List (String × String) → String → String → List (String × String)
  | [], k, v => [(k, v)]
  | (k1, v1) :: rest, k, v =>
    if k1 = k then (k, v) :: rest else (k1, v1) :: setKey rest k v

/-- `localStorage.getItem(k)` on the entry list (`none` ≡ `null`). -/
def lookupKey : List (String × String) → String → Option String
  | [], _ => none
  | (k1, v1) :: rest, k => if k1 = k then some v1 else lookupKey rest k

/-- Per-provider credential sections of the stored config. -/
structure TwitterCfg where
  bearerToken : Option String
deriving Repr, DecidableEq

structure BlueskyCfg where
  handle : Option String
  appPassword : Option String
deriving Repr, DecidableEq

structure TokenCfg where
  accessToken : Option String
deriving Repr, DecidableEq

/-- The config object: each provider's section may be absent. -/
structure Config where
  twitter : Option TwitterCfg
  bluesky : Option BlueskyCfg
  linkedin : Option TokenCfg
  threads : Option TokenCfg
deriving Repr, DecidableEq

def emptyConfig : Config := ⟨none, none, none, none⟩

/-- `storageAvailable()`: probe-write the test key and remove it; a throwing
`setItem` is caught and reported as unavailable. -/
def storageAvailable (st : Storage) : Bool × Storage :=
  if st.setThrows then (false, st)
  else (true, { st with
    entries := eraseKey (setKey st.entries "__storage_test__" "__storage_test__") "__storage_test__" })

/-- `safeGetItem(key, defaultValue)` specialised to the config value:
unavailable storage, a missing/falsy item, or a `JSON.parse` failure (the
`parse` oracle returning `none`) all resolve to the default. -/
def safeGetItem (parse : String → Option Config) (key : String) (defaultValue : Config)
    (st : Storage) : Config × Storage :=
  let av := storageAvailable st
  if !av.1 then (defaultValue, av.2)
  else
    match lookupKey av.2.entries key with
    | none => (defaultValue, av.2)
    | some s =>
      if s = "" then (defaultValue, av.2)
      else
        match parse s with
        | some v => (v, av.2)
        | none => (defaultValue, av.2)

/-- `config()`: `window.socialConfig || loadStoredConfig()` — a truthy
injected config short-circuits; otherwise read `"sm_config"` from storage
with `{}` as default. -/
def configSt (winCfg : Option Config) (parse : String → Option Config)
    (st : Storage) : Config × Storage :=
  match winCfg with
  | some c => (c, st)
  | none => safeGetItem parse "sm_config" emptyConfig st

/-- The `switch (id)` body of `createProvider(...).isConfigured`. -/
def checkConfigured (id : String) (cfg : Config) : Bool :=
  if id = "twitter" then jsTruthyOpt ((cfg.twitter.getD ⟨none⟩).bearerToken)
  else if id = "bluesky" then
    let b := cfg.bluesky.getD ⟨none, none⟩
    jsTruthyOpt b.handle && jsTruthyOpt b.appPassword
  else if id = "linkedin" then jsTruthyOpt ((cfg.linkedin.getD ⟨none⟩).accessToken)
  else if id = "threads" then jsTruthyOpt ((cfg.threads.getD ⟨none⟩).accessToken)
  else false

/-- `createProvider(...).isConfigured()` with the ambient state explicit:
reads `config()` (which may probe the storage) and applies the credential
check; returns the boolean together with the storage state it leaves
behind. -/
def isConfiguredSt (id : String) (winCfg : Option Config) (parse : String → Option Config)
    (st : Storage) : Bool × Storage :=
  let c := configSt winCfg parse st
  (checkConfigured id c.1, c.2)

-- ═══════════════════════════════════════════════════════════════════════════
-- Helper lemmas
-- ═══════════════════════════════════════════════════════════════════════════

theorem insertDemo_of_not_demo (x : Post) (hx : x.isDemo = false) (l : List Post) :
    insertDemo x l = x :: l := by
  cases l with
  | nil => rfl
  | cons y ys =>
    have hc : cmpDemo x y ≤ 0 := by
      cases hy : y.isDemo <;> simp [cmpDemo, hx, hy]
    simp [insertDemo, hc]

theorem insertDemo_append_of_demo (x : Post) (hx : x.isDemo = true)
    (A B : List Post) (hA : ∀ a ∈ A, a.isDemo = false) :
    insertDemo x (A ++ B) = A ++ insertDemo x B := by
  induction A with
  | nil => rfl
  | cons a as ih =>
    have ha : a.isDemo = false := hA a (by simp)
    have hc : ¬ cmpDemo x a ≤ 0 := by simp [cmpDemo, hx, ha]
    simp only [List.cons_append, insertDemo, if_neg hc, List.append_eq]
    exact congrArg (a :: ·) (ih (fun a' ha' => hA a' (by simp [ha'])))

theorem insertDemo_all_demo (x : Post) (hx : x.isDemo = true)
    (B : List Post) (hB : ∀ b ∈ B, b.isDemo = true) :
    insertDemo x B = x :: B := by
  cases B with
  | nil => rfl
  | cons b bs =>
    have hb : b.isDemo = true := hB b (by simp)
    have hc : cmpDemo x b ≤ 0 := by simp [cmpDemo, hx, hb]
    simp [insertDemo, hc]

/-- The stable sort with the `isDemo` comparator is exactly the stable
partition: the non-demo posts in arrival order, then the demo posts in
arrival order. -/
theorem sortDemo_eq_partition (l : List Post) :
    sortDemo l = l.filter (fun p => !p.isDemo) ++ l.filter (fun p => p.isDemo) := by
  induction l with
  | nil => rfl
  | cons x xs ih =>
    cases hx : x.isDemo with
    | false =>
      have h1 : insertDemo x (sortDemo xs) = x :: sortDemo xs :=
        insertDemo_of_not_demo x hx _
      simp only [sortDemo]
      rw [h1, ih]
      simp [List.filter_cons, hx]
    | true =>
      have hF : ∀ a ∈ xs.filter (fun p => !p.isDemo), a.isDemo = false := by
        intro a ha
        have := (List.mem_filter.mp ha).2
        simpa using this
      have hT : ∀ b ∈ xs.filter (fun p => p.isDemo), b.isDemo = true := by
        intro b hb
        exact (List.mem_filter.mp hb).2
      calc sortDemo (x :: xs)
          = insertDemo x (xs.filter (fun p => !p.isDemo) ++ xs.filter (fun p => p.isDemo)) := by
            simp [sortDemo, ih]
        _ = xs.filter (fun p => !p.isDemo) ++ insertDemo x (xs.filter (fun p => p.isDemo)) :=
            insertDemo_append_of_demo x hx _ _ hF
        _ = xs.filter (fun p => !p.isDemo) ++ x :: xs.filter (fun p => p.isDemo) := by
            rw [insertDemo_all_demo x hx _ hT]
        _ = (x :: xs).filter (fun p => !p.isDemo) ++ (x :: xs).filter (fun p => p.isDemo) := by
            simp [List.filter_cons, hx]

theorem statusMessage_ne_idle (r d : Nat) : statusMessage r d ≠ "Idle" := by
  unfold statusMessage
  split
  · intro h
    have hl := congrArg String.length h
    simp only [String.length_append] at hl
    have e1 : (" live + " : String).length = 8 := rfl
    have e2 : (" demo posts" : String).length = 11 := rfl
    have e3 : ("Idle" : String).length = 4 := rfl
    omega
  split
  · intro h
    have hl := congrArg String.length h
    simp only [String.length_append] at hl
    have e1 : ("Loaded " : String).length = 7 := rfl
    have e2 : (" posts" : String).length = 6 := rfl
    have e3 : ("Idle" : String).length = 4 := rfl
    omega
  · intro h
    have hl := congrArg String.length h
    simp only [String.length_append] at hl
    have e1 : (" demo posts (configure providers for live data)" : String).length = 47 := rfl
    have e2 : ("Idle" : String).length = 4 := rfl
    omega

theorem eraseKey_setKey (l : List (String × String)) (k v : String) :
    eraseKey (setKey l k v) k = eraseKey l k := by
  induction l with
  | nil => simp [setKey, eraseKey]
  | cons e rest ih =>
    obtain ⟨k1, v1⟩ := e
    by_cases h : k1 = k
    · subst h
      simp [setKey, eraseKey]
    · simp [setKey, eraseKey, h, ih]

theorem eraseKey_idem (l : List (String × String)) (k : String) :
    eraseKey (eraseKey l k) k = eraseKey l k := by
  induction l with
  | nil => rfl
  | cons e rest ih =>
    obtain ⟨k1, v1⟩ := e
    by_cases h : k1 = k
    · simp [eraseKey, h, ih]
    · simp [eraseKey, h, ih]

/-- Whatever branch `safeGetItem` takes, the storage state it leaves behind
is the one the availability probe left behind. -/
theorem safeGetItem_state (parse : String → Option Config) (key : String)
    (d : Config) (st : Storage) :
    (safeGetItem parse key d st).2 = (storageAvailable st).2 := by
  unfold safeGetItem
  by_cases hav : (storageAvailable st).1
  · simp only [hav, Bool.not_true, Bool.false_eq_true, if_false]
    cases hl : lookupKey (storageAvailable st).2.entries key with
    | none => simp [hl]
    | some s =>
      by_cases hs : s = ""
      · simp [hl, hs]
      · cases hp : parse s <;> simp [hl, hs, hp]
  · simp [hav]

-- ═══════════════════════════════════════════════════════════════════════════
-- Claim theorems
-- ═══════════════════════════════════════════════════════════════════════════

/-- C2: every feed produced by the aggregation search is the stable
partition of the arriving posts: the non-demo posts in arrival order
followed by the demo posts in arrival order — so no demo post precedes a
non-demo post, and the relative arrival order within each group is
preserved.  (For an empty provider set both sides are the empty feed.) -/
theorem c2_feed_demo_partition (active : List ProviderRun) (query : String) (nowMs : Nat) :
    (runSearch active query nowMs).feed
      = (engineRawFeed active query nowMs).filter (fun p => !p.isDemo)
        ++ (engineRawFeed active query nowMs).filter (fun p => p.isDemo) := by
  cases active with
  | nil => rfl
  | cons p ps =>
    show sortDemo (engineRawFeed (p :: ps) query nowMs) = _
    exact sortDemo_eq_partition _

/-- C3: a provider whose `isConfigured()` is `false` contributes only posts
with `isDemo == true` to the aggregated feed — `runSearch` stamps
`post.isDemo = true` on every post of an unconfigured provider, whatever
its adapter outcome and whatever the query. -/
theorem c3_unconfigured_only_demo (id : String) (outcome : AdapterOutcome)
    (query : String) (nowMs : Nat) :
    (engineProviderPosts ⟨id, false, outcome⟩ query nowMs).all (fun p => p.isDemo) = true := by
  simp [engineProviderPosts, List.all_eq_true]

/-- C4: the engine-level post operation is total (no exception escapes, by
construction of `createProviderPost`); with no registered adapter client it
returns the structured failure `"No provider client"`, a delegated call
that raises `msg` is converted to `{ ok: false, error: msg }`, and a
resolved delegated call is passed through. -/
theorem c4_post_structured_failures (msg : String) (r : PostResult) :
    createProviderPost none
      = { ok := false, url := none, error := some "No provider client" } ∧
    createProviderPost (some (Except.error msg))
      = { ok := false, url := none, error := some msg } ∧
    createProviderPost (some (Except.ok r)) = r :=
  ⟨rfl, rfl, rfl⟩

/-- C5: in the two-phase Threads publish flow, whenever the phase-1 create
request answers with a non-success status, `post` returns `{ ok: false }`
whose error message embeds that status ("Threads create <status>"), and the
phase-2 publish request is never issued (the `false` in the result pair). -/
theorem c5_create_fail_skips_publish (t : String) (meStatus createStatus : Nat)
    (meId meUser cId cUser : String) (pub : HttpResp) :
    threadsPost ⟨some t, ⟨true, meStatus, meId, meUser⟩, ⟨false, createStatus, cId, cUser⟩, pub⟩
      = (Except.ok { ok := false, url := none
                   , error := some ("Threads create " ++ toString createStatus) }, false) :=
  rfl

/-- C6: normalization is lossless for reply threading — the canonical post's
`provider` is exactly the provider id passed in, and `uri`, `cid` and
`conversationId` are carried through from the raw item unmodified. -/
theorem c6_normalize_preserves_reply_context (provider : String) (nowMs idx : Nat)
    (item : RawItem) :
    (normalizeItem provider nowMs idx item).provider = provider ∧
    (normalizeItem provider nowMs idx item).uri = item.uri ∧
    (normalizeItem provider nowMs idx item).cid = item.cid ∧
    (normalizeItem provider nowMs idx item).conversationId = item.conversationId :=
  ⟨rfl, rfl, rfl, rfl⟩

/-- C7: with no active provider the search returns an empty feed, the
informational "Choose at least one provider" empty-state message and the
"Idle" status; with at least one active provider that message is never
shown and the status is never "Idle" (so the no-provider state is
distinguishable both from an error — search failures never surface as
errors — and from a zero-results outcome). -/
theorem c7_no_provider_informational (query : String) (nowMs : Nat)
    (p0 : ProviderRun) (rest : List ProviderRun) :
    runSearch [] query nowMs
      = { feed := [], status := "Idle", noProviderMsg := some "Choose at least one provider" } ∧
    (runSearch (p0 :: rest) query nowMs).noProviderMsg = none ∧
    (runSearch (p0 :: rest) query nowMs).status ≠ "Idle" := by
  refine ⟨rfl, rfl, ?_⟩
  exact statusMessage_ne_idle _ _

/-- C9: relative-time formatting at a fixed "now": 45 seconds in the past
renders "just now", 90 minutes in the past renders "1h" (integer-hour
floor), 50 hours in the past renders "2d". -/
theorem c9_relative_time_buckets (nowMs : Int) :
    relativeTime nowMs (some (nowMs - 45000)) = "just now" ∧
    relativeTime nowMs (some (nowMs - 5400000)) = "1h" ∧
    relativeTime nowMs (some (nowMs - 180000000)) = "2d" := by
  refine ⟨?_, ?_, ?_⟩
  · have e : nowMs - (nowMs - 45000) = 45000 := by omega
    show relativeFromMs (nowMs - (nowMs - 45000)) = "just now"
    rw [e]; decide
  · have e : nowMs - (nowMs - 5400000) = 5400000 := by omega
    show relativeFromMs (nowMs - (nowMs - 5400000)) = "1h"
    rw [e]; decide
  · have e : nowMs - (nowMs - 180000000) = 180000000 := by omega
    show relativeFromMs (nowMs - (nowMs - 180000000)) = "2d"
    rw [e]; decide

/-- C10: the normalizer is total (a Lean function; every missing field
resolves to a default inside `normalizeItem`) and one-to-one on positions:
the output has exactly the input's length, and the `i`-th canonical post is
exactly the normalization of the `i`-th raw item — nothing is dropped,
duplicated or reordered. -/
theorem c10_normalize_total_pointwise (items : List RawItem) (provider : String)
    (nowMs : Nat) (i : Nat) :
    (normalizePosts items provider nowMs).length = items.length ∧
    (normalizePosts items provider nowMs)[i]?
      = (items[i]?).map (normalizeItem provider nowMs i) := by
  constructor
  · exact mapWithIndex_length _ 0 items
  · have h := mapWithIndex_getElem? (fun idx item => normalizeItem provider nowMs idx item) 0 items i
    simpa using h

/-- C1 counterexample: one active provider, configured, whose adapter
search call throws a transport error — so every configured adapter's call
failed.  The engine substitutes the three demo-fallback posts, but none of
them carries `isDemo == true` (the tag is applied only to unconfigured
providers), and the overall status is "Loaded 3 posts": it reports three
live posts, not zero. -/
theorem c1_counterexample :
    (runSearch [⟨"twitter", true, AdapterOutcome.err "transport error"⟩] "" 0).feed.length = 3 ∧
    (runSearch [⟨"twitter", true, AdapterOutcome.err "transport error"⟩] "" 0).feed.all
      (fun p => !p.isDemo) = true ∧
    (runSearch [⟨"twitter", true, AdapterOutcome.err "transport error"⟩] "" 0).status
      = "Loaded 3 posts" := by
  refine ⟨?_, ?_, ?_⟩ <;> decide

/-- C1 amended: a failing adapter search is substituted by the provider's
demo-fallback posts instead of aborting or surfacing an error, but the
`isDemo == true` tag is applied only to providers whose `isConfigured()` is
`false`; in particular, if every active provider is unconfigured, the
resulting feed contains only posts tagged `isDemo == true` and the overall
status is the demo-only message reporting zero live posts. -/
theorem c1_amended_fallback_and_demo_status (active : List ProviderRun)
    (query pid pquery msg : String) (n nowMs : Nat)
    (hne : active ≠ []) (hall : ∀ p ∈ active, p.configured = false) :
    providerSearch (AdapterOutcome.err msg) pid pquery n = fallbackMock pid pquery ∧
    (runSearch active query nowMs).feed.all (fun p => p.isDemo) = true ∧
    (runSearch active query nowMs).status
      = toString (runSearch active query nowMs).feed.length
        ++ " demo posts (configure providers for live data)" := by
  have hraw : ∀ post ∈ engineRawFeed active query nowMs, post.isDemo = true := by
    intro post hpost
    simp only [engineRawFeed, List.mem_flatten, List.mem_map] at hpost
    obtain ⟨_, ⟨p, hp, rfl⟩, hmem⟩ := hpost
    have hc := hall p hp
    simp only [engineProviderPosts, hc, Bool.false_eq_true, if_false, List.mem_map] at hmem
    obtain ⟨q, _, rfl⟩ := hmem
    rfl
  obtain ⟨p0, rest, rfl⟩ : ∃ p0 rest, active = p0 :: rest := by
    cases active with
    | nil => exact absurd rfl hne
    | cons p0 rest => exact ⟨p0, rest, rfl⟩
  have hfeedEq : (runSearch (p0 :: rest) query nowMs).feed
      = engineRawFeed (p0 :: rest) query nowMs := by
    have h2 : (runSearch (p0 :: rest) query nowMs).feed
        = (engineRawFeed (p0 :: rest) query nowMs).filter (fun p => !p.isDemo)
          ++ (engineRawFeed (p0 :: rest) query nowMs).filter (fun p => p.isDemo) := by
      show sortDemo (engineRawFeed (p0 :: rest) query nowMs) = _
      exact sortDemo_eq_partition _
    have hnil : (engineRawFeed (p0 :: rest) query nowMs).filter (fun p => !p.isDemo) = [] := by
      rw [List.filter_eq_nil_iff]
      intro a ha
      simp [hraw a ha]
    have hself : (engineRawFeed (p0 :: rest) query nowMs).filter (fun p => p.isDemo)
        = engineRawFeed (p0 :: rest) query nowMs := by
      rw [List.filter_eq_self]
      intro a ha
      exact hraw a ha
    rw [h2, hnil, hself, List.nil_append]
  refine ⟨rfl, ?_, ?_⟩
  · rw [List.all_eq_true]
    intro a ha
    rw [hfeedEq] at ha
    simp [hraw a ha]
  · have hreal : ((runSearch (p0 :: rest) query nowMs).feed.filter
        (fun p => !p.isDemo)).length = 0 := by
      rw [hfeedEq]
      rw [List.length_eq_zero, List.filter_eq_nil_iff]
      intro a ha
      simp [hraw a ha]
    have hdemo : ((runSearch (p0 :: rest) query nowMs).feed.filter
        (fun p => p.isDemo)).length = (runSearch (p0 :: rest) query nowMs).feed.length := by
      congr 1
      rw [hfeedEq, List.filter_eq_self]
      intro a ha
      exact hraw a ha
    have hstat : (runSearch (p0 :: rest) query nowMs).status
        = statusMessage
            (((runSearch (p0 :: rest) query nowMs).feed.filter (fun p => !p.isDemo)).length)
            (((runSearch (p0 :: rest) query nowMs).feed.filter (fun p => p.isDemo)).length) := rfl
    rw [hstat, hreal, hdemo]
    simp [statusMessage]

/-- C1 amended, witness: a single unconfigured provider whose adapter call
throws — its fallback posts are all tagged demo and the status is the
demo-only message. -/
theorem c1_amended_witness :
    providerSearch (AdapterOutcome.err "boom") "twitter" "hiring" 0
      = fallbackMock "twitter" "hiring" ∧
    (runSearch [⟨"bluesky", false, AdapterOutcome.err "transport"⟩] "" 0).feed.all
      (fun p => p.isDemo) = true ∧
    (runSearch [⟨"bluesky", false, AdapterOutcome.err "transport"⟩] "" 0).status
      = toString (runSearch [⟨"bluesky", false, AdapterOutcome.err "transport"⟩] "" 0).feed.length
        ++ " demo posts (configure providers for live data)" :=
  c1_amended_fallback_and_demo_status
    [⟨"bluesky", false, AdapterOutcome.err "transport"⟩]
    "" "twitter" "hiring" "boom" 0 0 (by decide) (by decide)

/-- C8 counterexample: `isConfigured` is not free of observable side
effects — when the store already holds an entry under the probe key
`"__storage_test__"`, the availability probe inside `config()` removes it,
so the storage state after the call differs from the state before it. -/
theorem c8_counterexample :
    (isConfiguredSt "twitter" none (fun _ => none)
        { entries := [("__storage_test__", "keep"), ("sm_config", "cfg")]
        , setThrows := false }).2
      ≠ { entries := [("__storage_test__", "keep"), ("sm_config", "cfg")]
        , setThrows := false } := by
  decide

/-- C8 amended: calling `isConfigured` twice with no intervening
configuration change returns the same boolean both times, and the call
performs no network I/O (none is modelled — the computation only reads the
injected config or the storage state); its only storage effect is the
availability probe, which either leaves the store exactly unchanged or
merely removes a pre-existing entry under the probe key
`"__storage_test__"` (never touching any credential key). -/
theorem c8_amended_idempotent_probe_only (id : String) (winCfg : Option Config)
    (parse : String → Option Config) (st : Storage) :
    (isConfiguredSt id winCfg parse ((isConfiguredSt id winCfg parse st).2)).1
      = (isConfiguredSt id winCfg parse st).1 ∧
    ((isConfiguredSt id winCfg parse st).2 = st ∨
     (isConfiguredSt id winCfg parse st).2
       = { st with entries := eraseKey st.entries "__storage_test__" }) := by
  cases winCfg with
  | some c => exact ⟨rfl, Or.inl rfl⟩
  | none =>
    by_cases hthrow : st.setThrows
    · have hsa : storageAvailable st = (false, st) := by
        simp [storageAvailable, hthrow]
      have hstate : (isConfiguredSt id none parse st).2 = st := by
        show (safeGetItem parse "sm_config" emptyConfig st).2 = st
        rw [safeGetItem_state, hsa]
      constructor
      · rw [hstate]
      · exact Or.inl hstate
    · have hsa : storageAvailable st
          = (true, { st with entries := eraseKey st.entries "__storage_test__" }) := by
        simp [storageAvailable, hthrow, eraseKey_setKey]
      have hstate : (isConfiguredSt id none parse st).2
          = { st with entries := eraseKey st.entries "__storage_test__" } := by
        show (safeGetItem parse "sm_config" emptyConfig st).2 = _
        rw [safeGetItem_state, hsa]
      have hsa2 : storageAvailable { st with entries := eraseKey st.entries "__storage_test__" }
          = (true, { st with entries := eraseKey st.entries "__storage_test__" }) := by
        simp [storageAvailable, hthrow, eraseKey_setKey, eraseKey_idem]
      constructor
      · rw [hstate]
        show checkConfigured id (safeGetItem parse "sm_config" emptyConfig
              { st with entries := eraseKey st.entries "__storage_test__" }).1
            = checkConfigured id (safeGetItem parse "sm_config" emptyConfig st).1
        congr 1
        unfold safeGetItem
        rw [hsa, hsa2]
      · exact Or.inr hstate

end SocialManager
